import Mathlib

/-!
Verification of the ULD sizing and fit-validation engine
(`src/agents/uld_utils.py`): the six pure calculation functions and the
static ULD specification tables they read.

Embedding conventions:
* Python numbers (ints and floats) are embedded as exact rationals `ℚ`;
  all quantities appearing in the claims are exactly representable.
* `int(x)` (truncation toward zero) is `pyInt`; the Python float
  operation `x % 1` (floor-based remainder) is `pyMod1`.
* Python dicts used as lookup tables are association lists in
  declaration order, looked up with `dictLookup` (first match).
* Each tool returns a formatted string in Python; here each returns a
  structured outcome carrying exactly the data that is interpolated into
  that string.  Unknown-type early returns keep their exact message text.
* `calculate_uld_requirements` and `compare_uld_options` have no
  try/except; the division by `ulds_required * capacity` raises an
  uncaught `ZeroDivisionError` whenever `ulds_required` is zero.  That
  escape is modelled by a dedicated `zeroDivisionError` outcome.
* The aggregation tools wrap everything in try/except; their input is
  an `Except String` value whose `error` case models a `json.loads`
  failure (carrying the exception text), which the tool converts into
  its "Error calculating ..." string.
-/

namespace UldUtils

/-- Python `int(x)` for a real-valued `x`: truncation toward zero. -/
def pyInt (q : ℚ) : ℤ :=
if q < 0 then ⌈q⌉ else ⌊q⌋

/-- Python `x % 1` on floats: floor-based fractional part. -/
def pyMod1 (q : ℚ) : ℚ :=
q - ⌊q⌋

/-- The rounding idiom `int(x) + (1 if x % 1 > 0 else 0)` used at
`uld_utils.py` lines 208, 212, 335 and 338. -/
def pyCeilCount (q : ℚ) : ℤ :=
pyInt q + (if 0 < pyMod1 q then 1 else 0)

/-- Python `str.upper()`, as applied to the ASCII ULD type codes:
uppercase every character. -/
def pyUpper (s : String) : String :=
⟨s.data.map Char.toUpper⟩

/-- First-match lookup in an association list, modelling a Python dict
keyed by strings. -/
def dictLookup {α : Type} (table : List (String × α)) (key : String) : Option α :=
(table.find? (fun p => p.1 == key)).map (fun p => p.2)

/-- One record of the weight-capacity table inside
`validate_weight_constraints` (lines 124-130). -/
structure WeightSpec where
  name : String
  max_gross : ℚ
  tare : ℚ
  max_net : ℚ
deriving DecidableEq

/-- One record of the sizing tables inside `calculate_uld_requirements`
(lines 191-197) and `compare_uld_options` (lines 322-328). -/
structure SizingSpec where
  name : String
  max_net : ℚ
  volume : ℚ
deriving DecidableEq

/-- One record of the internal-dimension table inside
`check_dimensional_fit` (lines 250-256). -/
structure DimSpec where
  name : String
  length : ℚ
  width : ℚ
  height : ℚ
deriving DecidableEq

/-- The `uld_specs` dict of `validate_weight_constraints`. -/
def uld_specs_weight : List (String × WeightSpec) :=
[("AKE", ⟨"LD3", 1588, 85, 1503⟩),
 ("AAA", ⟨"LD7", 4626, 120, 4506⟩),
 ("AKN", ⟨"LD8", 2449, 105, 2344⟩),
 ("AAP", ⟨"LD6", 3176, 115, 3061⟩),
 ("AMA", ⟨"LD9", 6804, 180, 6624⟩)]

/-- The `uld_specs` dict of `calculate_uld_requirements`. -/
def uld_specs_sizing : List (String × SizingSpec) :=
[("AKE", ⟨"LD3", 1503, 3.5⟩),
 ("AAA", ⟨"LD7", 4506, 7.2⟩),
 ("AKN", ⟨"LD8", 2344, 5.5⟩),
 ("AAP", ⟨"LD6", 3061, 7.2⟩),
 ("AMA", ⟨"LD9", 6624, 11.6⟩)]

/-- The `uld_specs` dict of `compare_uld_options` (textually duplicated
in the source). -/
def uld_specs_compare : List (String × SizingSpec) :=
[("AKE", ⟨"LD3", 1503, 3.5⟩),
 ("AAA", ⟨"LD7", 4506, 7.2⟩),
 ("AKN", ⟨"LD8", 2344, 5.5⟩),
 ("AAP", ⟨"LD6", 3061, 7.2⟩),
 ("AMA", ⟨"LD9", 6624, 11.6⟩)]

/-- The `uld_dimensions` dict of `check_dimensional_fit`. -/
def uld_dimensions : List (String × DimSpec) :=
[("AKE", ⟨"LD3", 150, 147, 157⟩),
 ("AAA", ⟨"LD7", 311, 147, 157⟩),
 ("AKN", ⟨"LD8", 238, 147, 157⟩),
 ("AAP", ⟨"LD6", 311, 147, 157⟩),
 ("AMA", ⟨"LD9", 311, 238, 157⟩)]

/-- The codes enumerated by the unknown-type error messages. -/
def validTypes : List String :=
["AKE", "AAA", "AKN", "AAP", "AMA"]

/-- Result of `calculate_total_weight`: either the caught-and-formatted
error string, or the total plus one breakdown entry
`(quantity, weight, item_total)` per item. -/
inductive WeightResult where
  | error (msg : String)
  | ok (total : ℚ) (breakdown : List (ℚ × ℚ × ℚ))
deriving DecidableEq

/-- A decoded cargo item for weight aggregation; `none` models an
absent dict key (`item.get` default applies). -/
structure WeightItem where
  weight : Option ℚ
  quantity : Option ℚ
deriving DecidableEq

/-- Loop body of `calculate_total_weight` (lines 37-43): accumulate the
running total and append the breakdown entry. -/
def weightStep (acc : ℚ × List (ℚ × ℚ × ℚ)) (item : WeightItem) : ℚ × List (ℚ × ℚ × ℚ) :=
let weight := item.weight.getD 0
let quantity := item.quantity.getD 1
let item_total := weight * quantity
(acc.1 + item_total, acc.2 ++ [(quantity, weight, item_total)])

/-- `calculate_total_weight` (lines 31-49).  The argument is the result
of `json.loads`: `.error e` is a decoding failure with message `e`,
caught by the function and turned into its error string. -/
def calculate_total_weight (cargo_items : Except String (List WeightItem)) : WeightResult :=
match cargo_items with
  | .error e => .error ("Error calculating weight: " ++ e)
  | .ok items =>
    let r := items.foldl weightStep (0, [])
    .ok r.1 r.2

/-- Result of `calculate_total_volume`: the total in cubic meters plus
one breakdown entry `(quantity, length, width, height, total_item_volume)`
per item. -/
inductive VolumeResult where
  | error (msg : String)
  | ok (total_volume_m3 : ℚ) (breakdown : List (ℚ × ℚ × ℚ × ℚ × ℚ))
deriving DecidableEq

/-- A decoded cargo item for volume aggregation. -/
structure VolumeItem where
  length : Option ℚ
  width : Option ℚ
  height : Option ℚ
  quantity : Option ℚ
deriving DecidableEq

/-- Loop body of `calculate_total_volume` (lines 77-92): accumulate the
running cm-cubed total and append the breakdown entry. -/
def volumeStep (acc : ℚ × List (ℚ × ℚ × ℚ × ℚ × ℚ)) (item : VolumeItem) :
    ℚ × List (ℚ × ℚ × ℚ × ℚ × ℚ) :=
let length := item.length.getD 0
let width := item.width.getD 0
let height := item.height.getD 0
let quantity := item.quantity.getD 1
let item_volume_cm3 := length * width * height
let item_volume_m3 := item_volume_cm3 / 1000000
let total_item_volume := item_volume_m3 * quantity
(acc.1 + item_volume_cm3 * quantity,
 acc.2 ++ [(quantity, length, width, height, total_item_volume)])

/-- `calculate_total_volume` (lines 71-100). -/
def calculate_total_volume (cargo_items : Except String (List VolumeItem)) : VolumeResult :=
match cargo_items with
  | .error e => .error ("Error calculating volume: " ++ e)
  | .ok items =>
    let r := items.foldl volumeStep (0, [])
    .ok (r.1 / 1000000) r.2

/-- Outcome of `validate_weight_constraints`: the data interpolated into
the VALID / INVALID / unknown-type strings. -/
inductive WeightValidation where
  | error (msg : String)
  | valid (uld name capacity_type : String)
      (total_weight max_capacity remaining utilization : ℚ)
  | invalid (uld name capacity_type : String)
      (total_weight max_capacity excess : ℚ) (recommendation : String)
deriving DecidableEq

/-- Whether a weight validation reports the VALID outcome. -/
def WeightValidation.isValid : WeightValidation → Bool
  | .valid _ _ _ _ _ _ _ => true
  | _ => false

/-- `validate_weight_constraints` (lines 104-167). -/
def validate_weight_constraints (uld_type : String) (cargo_weight : ℚ)
    (include_tare : Bool := true) : WeightValidation :=
match dictLookup uld_specs_weight (pyUpper uld_type) with
  | none => .error ("‚ùå ERROR: Unknown ULD type \x27" ++ uld_type ++
      "\x27. Valid types: AKE, AAA, AKN, AAP, AMA")
  | some spec =>
    let total_weight := if include_tare then cargo_weight + spec.tare else cargo_weight
    let max_capacity := if include_tare then spec.max_gross else spec.max_net
    let capacity_type := if include_tare then "max gross weight" else "max net weight"
    if total_weight ≤ max_capacity then
      .valid (pyUpper uld_type) spec.name capacity_type total_weight max_capacity
        (max_capacity - total_weight) (total_weight / max_capacity * 100)
    else
      .invalid (pyUpper uld_type) spec.name capacity_type total_weight max_capacity
        (total_weight - max_capacity) "Use larger ULD type or split cargo"

/-- The intermediate quantities bound at lines 207-216 of
`calculate_uld_requirements`. -/
structure SizingCore where
  ulds_by_weight : ℚ
  ulds_by_weight_rounded : ℤ
  ulds_by_volume : ℚ
  ulds_by_volume_rounded : ℤ
  ulds_required : ℤ
  limiting_factor : String
deriving DecidableEq

/-- Lines 207-216 of `calculate_uld_requirements`, verbatim. -/
def sizingCore (total_weight total_volume : ℚ) (spec : SizingSpec) : SizingCore :=
let ulds_by_weight := total_weight / spec.max_net
let ulds_by_weight_rounded := pyCeilCount ulds_by_weight
let ulds_by_volume := total_volume / spec.volume
let ulds_by_volume_rounded := pyCeilCount ulds_by_volume
{ ulds_by_weight := ulds_by_weight
  ulds_by_weight_rounded := ulds_by_weight_rounded
  ulds_by_volume := ulds_by_volume
  ulds_by_volume_rounded := ulds_by_volume_rounded
  ulds_required := max ulds_by_weight_rounded ulds_by_volume_rounded
  limiting_factor :=
    if ulds_by_weight_rounded > ulds_by_volume_rounded then "weight" else "volume" }

/-- Outcome of `calculate_uld_requirements`.  `zeroDivisionError` models
the uncaught Python `ZeroDivisionError` raised while formatting the
utilization percentages (lines 222-223) when `ulds_required * capacity`
is zero; the function has no try/except, so it propagates. -/
inductive SizingOutcome where
  | error (msg : String)
  | zeroDivisionError
  | report (uld name : String) (core : SizingCore)
      (weight_utilization volume_utilization : ℚ)
deriving DecidableEq

/-- `calculate_uld_requirements` (lines 171-225). -/
def calculate_uld_requirements (total_weight total_volume : ℚ)
    (uld_type : String := "AKE") : SizingOutcome :=
match dictLookup uld_specs_sizing (pyUpper uld_type) with
  | none => .error ("‚ùå ERROR: Unknown ULD type \x27" ++ uld_type ++
      "\x27. Valid types: AKE, AAA, AKN, AAP, AMA")
  | some spec =>
    let core := sizingCore total_weight total_volume spec
    if (core.ulds_required : ℚ) * spec.max_net = 0 ∨
       (core.ulds_required : ℚ) * spec.volume = 0 then
      .zeroDivisionError
    else
      .report (pyUpper uld_type) spec.name core
        (total_weight / ((core.ulds_required : ℚ) * spec.max_net) * 100)
        (total_volume / ((core.ulds_required : ℚ) * spec.volume) * 100)

/-- The counts-and-limiting-factor content of a sizing report. -/
def SizingOutcome.counts : SizingOutcome → Option (ℤ × ℤ × ℤ × String)
  | .report _ _ c _ _ =>
      some (c.ulds_by_weight_rounded, c.ulds_by_volume_rounded,
        c.ulds_required, c.limiting_factor)
  | _ => none

/-- Outcome of `check_dimensional_fit`: either the unknown-type message,
a FITS report with the three clearances, or a DOES-NOT-FIT report with
the per-dimension pass flags and the excess printed for each failing
dimension. -/
inductive FitOutcome where
  | error (msg : String)
  | fits (uld name : String)
      (length_clearance width_clearance height_clearance : ℚ)
  | doesNotFit (uld name : String)
      (length_fits width_fits height_fits : Bool)
      (length_excess width_excess height_excess : Option ℚ)
      (recommendation : String)
deriving DecidableEq

/-- `check_dimensional_fit` (lines 229-299). -/
def check_dimensional_fit (cargo_length cargo_width cargo_height : ℚ)
    (uld_type : String) : FitOutcome :=
match dictLookup uld_dimensions (pyUpper uld_type) with
  | none => .error ("‚ùå ERROR: Unknown ULD type \x27" ++ uld_type ++
      "\x27. Valid types: AKE, AAA, AKN, AAP, AMA")
  | some dim =>
    let length_fits := decide (cargo_length ≤ dim.length)
    let width_fits := decide (cargo_width ≤ dim.width)
    let height_fits := decide (cargo_height ≤ dim.height + 5)
    if length_fits && width_fits && height_fits then
      .fits (pyUpper uld_type) dim.name
        (dim.length - cargo_length) (dim.width - cargo_width)
        ((dim.height + 5) - cargo_height)
    else
      .doesNotFit (pyUpper uld_type) dim.name length_fits width_fits height_fits
        (if length_fits then none else some (cargo_length - dim.length))
        (if width_fits then none else some (cargo_width - dim.width))
        (if height_fits then none else some (cargo_height - (dim.height + 5)))
        "Use larger ULD type or reorient cargo"

/-- Whether a fit outcome is the FITS report. -/
def FitOutcome.isFits : FitOutcome → Bool
  | .fits _ _ _ _ _ => true
  | _ => false

/-- One entry of the `options` list built by `compare_uld_options`
(lines 347-354). -/
structure UldOption where
  type : String
  name : String
  quantity : ℤ
  weight_util : ℚ
  volume_util : ℚ
  avg_util : ℚ
deriving DecidableEq

/-- One iteration of the `compare_uld_options` loop (lines 332-354); the
computation duplicates the sizing arithmetic inline, exactly as the
source does.  `none` models the `ZeroDivisionError` raised at line 343
when `ulds_required * capacity` is zero. -/
def compareOption (cargo_weight cargo_volume : ℚ) (uld_type : String)
    (spec : SizingSpec) : Option UldOption :=
let ulds_by_weight := cargo_weight / spec.max_net
let ulds_by_weight_rounded := pyCeilCount ulds_by_weight
let ulds_by_volume := cargo_volume / spec.volume
let ulds_by_volume_rounded := pyCeilCount ulds_by_volume
let ulds_required := max ulds_by_weight_rounded ulds_by_volume_rounded
if (ulds_required : ℚ) * spec.max_net = 0 ∨ (ulds_required : ℚ) * spec.volume = 0 then
  none
else
  let weight_util := cargo_weight / ((ulds_required : ℚ) * spec.max_net) * 100
  let volume_util := cargo_volume / ((ulds_required : ℚ) * spec.volume) * 100
  some ⟨uld_type, spec.name, ulds_required, weight_util, volume_util,
    (weight_util + volume_util) / 2⟩

/-- The option record `compareOption` produces when no division by zero
occurs, written through `sizingCore` to connect it with the Sizing
Function's algorithm. -/
def mkOption (cargo_weight cargo_volume : ℚ) (uld_type : String)
    (spec : SizingSpec) : UldOption :=
let ulds_required := (sizingCore cargo_weight cargo_volume spec).ulds_required
let weight_util := cargo_weight / ((ulds_required : ℚ) * spec.max_net) * 100
let volume_util := cargo_volume / ((ulds_required : ℚ) * spec.volume) * 100
⟨uld_type, spec.name, ulds_required, weight_util, volume_util,
  (weight_util + volume_util) / 2⟩

/-- The loop of `compare_uld_options` over the specification table, in
declaration order; a `ZeroDivisionError` in any iteration aborts the
whole call. -/
def collectOptions (cargo_weight cargo_volume : ℚ) :
    List (String × SizingSpec) → Option (List UldOption)
  | [] => some []
  | p :: rest =>
    match compareOption cargo_weight cargo_volume p.1 p.2 with
    | none => none
    | some o =>
      match collectOptions cargo_weight cargo_volume rest with
      | none => none
      | some os => some (o :: os)

/-- Outcome of `compare_uld_options`. -/
inductive CompareOutcome where
  | zeroDivisionError
  | result (options : List UldOption)
deriving DecidableEq

/-- The comparison used at line 357: `sort(key avg_util, reverse)` is
Python's stable sort under the reversed comparison. -/
def optionLE (a b : UldOption) : Bool :=
decide (b.avg_util ≤ a.avg_util)

/-- `compare_uld_options` (lines 303-371). -/
def compare_uld_options (cargo_weight cargo_volume : ℚ) : CompareOutcome :=
match collectOptions cargo_weight cargo_volume uld_specs_compare with
  | none => .zeroDivisionError
  | some options => .result (options.mergeSort optionLE)

/-- The `options[0]` recommendation taken at line 368. -/
def CompareOutcome.recommendation : CompareOutcome → Option UldOption
  | .result options => options.head?
  | .zeroDivisionError => none

lemma dictLookup_cons {α : Type} (k : String) (v : α) (rest : List (String × α)) (key : String) :
    dictLookup ((k, v) :: rest) key = if k = key then some v else dictLookup rest key := by
  by_cases h : k = key
  · subst h
    simp [dictLookup, List.find?_cons_of_pos]
  · simp [dictLookup, List.find?_cons_of_neg, h]

lemma dictLookup_nil {α : Type} (key : String) :
    dictLookup ([] : List (String × α)) key = none := rfl

lemma lookup_weight (k : String) :
    dictLookup uld_specs_weight k =
      if k = "AKE" then some ⟨"LD3", 1588, 85, 1503⟩
      else if k = "AAA" then some ⟨"LD7", 4626, 120, 4506⟩
      else if k = "AKN" then some ⟨"LD8", 2449, 105, 2344⟩
      else if k = "AAP" then some ⟨"LD6", 3176, 115, 3061⟩
      else if k = "AMA" then some ⟨"LD9", 6804, 180, 6624⟩
      else none := by
  simp only [uld_specs_weight, dictLookup_cons, dictLookup_nil]
  simp [eq_comm]

lemma lookup_sizing (k : String) :
    dictLookup uld_specs_sizing k =
      if k = "AKE" then some ⟨"LD3", 1503, 3.5⟩
      else if k = "AAA" then some ⟨"LD7", 4506, 7.2⟩
      else if k = "AKN" then some ⟨"LD8", 2344, 5.5⟩
      else if k = "AAP" then some ⟨"LD6", 3061, 7.2⟩
      else if k = "AMA" then some ⟨"LD9", 6624, 11.6⟩
      else none := by
  simp only [uld_specs_sizing, dictLookup_cons, dictLookup_nil]
  simp [eq_comm]

lemma lookup_dims (k : String) :
    dictLookup uld_dimensions k =
      if k = "AKE" then some ⟨"LD3", 150, 147, 157⟩
      else if k = "AAA" then some ⟨"LD7", 311, 147, 157⟩
      else if k = "AKN" then some ⟨"LD8", 238, 147, 157⟩
      else if k = "AAP" then some ⟨"LD6", 311, 147, 157⟩
      else if k = "AMA" then some ⟨"LD9", 311, 238, 157⟩
      else none := by
  simp only [uld_dimensions, dictLookup_cons, dictLookup_nil]
  simp [eq_comm]

lemma compare_eq_sizing_table : uld_specs_compare = uld_specs_sizing := rfl

lemma pyCeilCount_eq_ceil (q : ℚ) (h : 0 ≤ q) : pyCeilCount q = ⌈q⌉ := by
  unfold pyCeilCount pyInt pyMod1
  rw [if_neg (not_lt.mpr h)]
  by_cases hf : 0 < q - ⌊q⌋
  · rw [if_pos hf, eq_comm, Int.ceil_eq_iff]
    push_cast
    constructor
    · linarith
    · linarith [Int.lt_floor_add_one q]
  · rw [if_neg hf]
    have h2 : (⌊q⌋ : ℚ) = q := by
      have := Int.floor_le q
      linarith [not_lt.mp hf]
    rw [add_zero, ← h2, Int.ceil_intCast, Int.floor_intCast]

lemma sizing_spec_pos (k : String) (spec : SizingSpec)
    (h : dictLookup uld_specs_sizing k = some spec) :
    0 < spec.max_net ∧ 0 < spec.volume := by
  rw [lookup_sizing] at h
  split_ifs at h <;> simp only [Option.some.injEq] at h <;>
    (try cases h) <;> constructor <;> norm_num

lemma lookup_none_of_not_mem_weight (k : String) (h : k ∉ validTypes) :
    dictLookup uld_specs_weight k = none := by
  rw [lookup_weight]
  simp only [validTypes, List.mem_cons, List.not_mem_nil, or_false] at h
  push_neg at h
  simp [h.1, h.2.1, h.2.2.1, h.2.2.2.1, h.2.2.2.2]

lemma lookup_none_of_not_mem_sizing (k : String) (h : k ∉ validTypes) :
    dictLookup uld_specs_sizing k = none := by
  rw [lookup_sizing]
  simp only [validTypes, List.mem_cons, List.not_mem_nil, or_false] at h
  push_neg at h
  simp [h.1, h.2.1, h.2.2.1, h.2.2.2.1, h.2.2.2.2]

lemma lookup_none_of_not_mem_dims (k : String) (h : k ∉ validTypes) :
    dictLookup uld_dimensions k = none := by
  rw [lookup_dims]
  simp only [validTypes, List.mem_cons, List.not_mem_nil, or_false] at h
  push_neg at h
  simp [h.1, h.2.1, h.2.2.1, h.2.2.2.1, h.2.2.2.2]

lemma pyUpper_AKE : pyUpper "AKE" = "AKE" := by decide

lemma pyUpper_ake : pyUpper "ake" = "AKE" := by decide

lemma ceil_weight_example : ⌈(2500:ℚ)/1503⌉ = 2 := by
  rw [Int.ceil_eq_iff]
  constructor <;> norm_num

lemma ceil_volume_example : ⌈(9:ℚ)/(7/2)⌉ = 3 := by
  rw [Int.ceil_eq_iff]
  constructor <;> norm_num

lemma eval_sizingCore_AKE : sizingCore 2500 9 ⟨"LD3", 1503, 3.5⟩ =
    ⟨2500/1503, 2, 9/3.5, 3, 3, "volume"⟩ := by
  have h1 : pyCeilCount ((2500:ℚ)/1503) = 2 := by
    rw [pyCeilCount_eq_ceil _ (by norm_num), ceil_weight_example]
  have h2 : pyCeilCount ((9:ℚ)/3.5) = 3 := by
    rw [pyCeilCount_eq_ceil _ (by norm_num), show (3.5:ℚ) = 7/2 by norm_num,
      ceil_volume_example]
  unfold sizingCore
  simp [h1, h2]

lemma eval_sizing_AKE : calculate_uld_requirements 2500 9 "AKE" =
    SizingOutcome.report "AKE" "LD3" (sizingCore 2500 9 ⟨"LD3", 1503, 3.5⟩)
      (250000/4509) (600/7) := by
  rw [calculate_uld_requirements, pyUpper_AKE, lookup_sizing]
  norm_num
  rw [show sizingCore 2500 9 ⟨"LD3", 1503, 7/2⟩ =
      ⟨2500/1503, 2, 9/3.5, 3, 3, "volume"⟩ by
    rw [show ((7:ℚ)/2) = 3.5 by norm_num]
    exact eval_sizingCore_AKE]
  norm_num

lemma eval_sizing_ake : calculate_uld_requirements 2500 9 "ake" =
    SizingOutcome.report "AKE" "LD3" (sizingCore 2500 9 ⟨"LD3", 1503, 3.5⟩)
      (250000/4509) (600/7) := by
  rw [calculate_uld_requirements, pyUpper_ake, lookup_sizing]
  norm_num
  rw [show sizingCore 2500 9 ⟨"LD3", 1503, 7/2⟩ =
      ⟨2500/1503, 2, 9/3.5, 3, 3, "volume"⟩ by
    rw [show ((7:ℚ)/2) = 3.5 by norm_num]
    exact eval_sizingCore_AKE]
  norm_num

lemma eval_sizing_counts : (calculate_uld_requirements 2500 9 "AKE").counts =
    some (2, 3, 3, "volume") := by
  rw [eval_sizing_AKE, SizingOutcome.counts, eval_sizingCore_AKE]

lemma eval_validate_AKE_1400 : validate_weight_constraints "AKE" 1400 true =
    WeightValidation.valid "AKE" "LD3" "max gross weight" 1485 1588 103 (1485/1588*100) := by
  rw [validate_weight_constraints, pyUpper_AKE, lookup_weight]
  norm_num

lemma eval_validate_ake_1400 : validate_weight_constraints "ake" 1400 true =
    WeightValidation.valid "AKE" "LD3" "max gross weight" 1485 1588 103 (1485/1588*100) := by
  rw [validate_weight_constraints, pyUpper_ake, lookup_weight]
  norm_num

lemma eval_validate_AKE_2000 : validate_weight_constraints "AKE" 2000 true =
    WeightValidation.invalid "AKE" "LD3" "max gross weight" 2085 1588 497
      "Use larger ULD type or split cargo" := by
  rw [validate_weight_constraints, pyUpper_AKE, lookup_weight]
  norm_num

lemma eval_fit_pass : check_dimensional_fit 120 100 150 "AKE" =
    FitOutcome.fits "AKE" "LD3" 30 47 12 := by
  rw [check_dimensional_fit, pyUpper_AKE, lookup_dims]
  norm_num

lemma eval_fit_fail : check_dimensional_fit 200 200 200 "AKE" =
    FitOutcome.doesNotFit "AKE" "LD3" false false false (some 50) (some 53) (some 38)
      "Use larger ULD type or reorient cargo" := by
  rw [check_dimensional_fit, pyUpper_AKE, lookup_dims]
  norm_num

lemma eval_fit_ake : check_dimensional_fit 120 100 150 "ake" =
    FitOutcome.fits "AKE" "LD3" 30 47 12 := by
  rw [check_dimensional_fit, pyUpper_ake, lookup_dims]
  norm_num

lemma foldl_weightStep (items : List WeightItem) (t : ℚ) (bd : List (ℚ × ℚ × ℚ)) :
    items.foldl weightStep (t, bd) =
      (t + (items.map fun i => i.weight.getD 0 * i.quantity.getD 1).sum,
       bd ++ items.map fun i =>
         (i.quantity.getD 1, i.weight.getD 0, i.weight.getD 0 * i.quantity.getD 1)) := by
  induction items generalizing t bd with
  | nil => simp
  | cons a l ih =>
    simp [weightStep, ih, add_assoc]

lemma foldl_volumeStep (items : List VolumeItem) (t : ℚ) (bd : List (ℚ × ℚ × ℚ × ℚ × ℚ)) :
    items.foldl volumeStep (t, bd) =
      (t + (items.map fun i =>
          i.length.getD 0 * i.width.getD 0 * i.height.getD 0 * i.quantity.getD 1).sum,
       bd ++ items.map fun i =>
         (i.quantity.getD 1, i.length.getD 0, i.width.getD 0, i.height.getD 0,
          i.length.getD 0 * i.width.getD 0 * i.height.getD 0 / 1000000 * i.quantity.getD 1)) := by
  induction items generalizing t bd with
  | nil => simp
  | cons a l ih =>
    simp [volumeStep, ih, add_assoc]

lemma required_raw_pos (w v : ℚ) (spec : SizingSpec)
    (hw : 0 ≤ w) (hv : 0 ≤ v) (hne : 0 < w ∨ 0 < v)
    (hnet : 0 < spec.max_net) (hvol : 0 < spec.volume) :
    0 < max (pyCeilCount (w / spec.max_net)) (pyCeilCount (v / spec.volume)) := by
  rw [pyCeilCount_eq_ceil _ (div_nonneg hw hnet.le),
    pyCeilCount_eq_ceil _ (div_nonneg hv hvol.le)]
  rcases hne with h | h
  · exact lt_max_iff.mpr (Or.inl (Int.ceil_pos.mpr (div_pos h hnet)))
  · exact lt_max_iff.mpr (Or.inr (Int.ceil_pos.mpr (div_pos h hvol)))

lemma sizingCore_required (w v : ℚ) (spec : SizingSpec) :
    (sizingCore w v spec).ulds_required =
      max (pyCeilCount (w / spec.max_net)) (pyCeilCount (v / spec.volume)) := rfl

lemma sizingCore_required_pos (w v : ℚ) (spec : SizingSpec)
    (hw : 0 ≤ w) (hv : 0 ≤ v) (hne : 0 < w ∨ 0 < v)
    (hnet : 0 < spec.max_net) (hvol : 0 < spec.volume) :
    0 < (sizingCore w v spec).ulds_required := by
  rw [sizingCore_required]
  exact required_raw_pos w v spec hw hv hne hnet hvol

lemma compareOption_eq_some (w v : ℚ) (t : String) (spec : SizingSpec)
    (hw : 0 ≤ w) (hv : 0 ≤ v) (hne : 0 < w ∨ 0 < v)
    (hnet : 0 < spec.max_net) (hvol : 0 < spec.volume) :
    compareOption w v t spec = some (mkOption w v t spec) := by
  have hr : (0:ℚ) < ((max (pyCeilCount (w / spec.max_net)) (pyCeilCount (v / spec.volume)) : ℤ) : ℚ) := by
    exact_mod_cast required_raw_pos w v spec hw hv hne hnet hvol
  have hcond : ¬(((max (pyCeilCount (w / spec.max_net)) (pyCeilCount (v / spec.volume)) : ℤ) : ℚ) * spec.max_net = 0 ∨
      ((max (pyCeilCount (w / spec.max_net)) (pyCeilCount (v / spec.volume)) : ℤ) : ℚ) * spec.volume = 0) := by
    push_neg
    exact ⟨(mul_pos hr hnet).ne', (mul_pos hr hvol).ne'⟩
  unfold compareOption
  rw [if_neg hcond]
  rfl

lemma compare_mem_lookup : ∀ p ∈ uld_specs_compare, dictLookup uld_specs_sizing p.1 = some p.2 := by
  intro p hp
  fin_cases hp <;> rfl

lemma compare_table_pos : ∀ p ∈ uld_specs_compare, 0 < p.2.max_net ∧ 0 < p.2.volume := by
  intro p hp
  fin_cases hp <;> exact ⟨by norm_num, by norm_num⟩

lemma collectOptions_eq (w v : ℚ) (hw : 0 ≤ w) (hv : 0 ≤ v) (hne : 0 < w ∨ 0 < v) :
    ∀ table : List (String × SizingSpec),
      (∀ p ∈ table, 0 < p.2.max_net ∧ 0 < p.2.volume) →
      collectOptions w v table = some (table.map fun p => mkOption w v p.1 p.2) := by
  intro table
  induction table with
  | nil => intro _; rfl
  | cons p rest ih =>
    intro h
    have h1 := h p (List.mem_cons_self p rest)
    simp only [collectOptions, compareOption_eq_some w v p.1 p.2 hw hv hne h1.1 h1.2,
      ih (fun q hq => h q (List.mem_cons_of_mem p hq)), List.map]

lemma mkOption_type (w v : ℚ) (t : String) (spec : SizingSpec) :
    (mkOption w v t spec).type = t := rfl

lemma optionLE_trans : ∀ a b c : UldOption, optionLE a b → optionLE b c → optionLE a c := by
  intro a b c h1 h2
  simp only [optionLE, decide_eq_true_eq] at h1 h2 ⊢
  exact le_trans h2 h1

lemma optionLE_total : ∀ a b : UldOption, optionLE a b || optionLE b a := by
  intro a b
  simp only [optionLE, Bool.or_eq_true, decide_eq_true_eq]
  exact le_total b.avg_util a.avg_util

lemma eval_sizing_zero (t : String) (spec : SizingSpec)
    (hspec : dictLookup uld_specs_sizing (pyUpper t) = some spec) :
    calculate_uld_requirements 0 0 t = SizingOutcome.zeroDivisionError := by
  rw [calculate_uld_requirements, hspec]
  simp [sizingCore, pyCeilCount, pyInt, pyMod1]

lemma eval_compare_zero : compare_uld_options 0 0 = CompareOutcome.zeroDivisionError := by
  have h : compareOption 0 0 "AKE" ⟨"LD3", 1503, 3.5⟩ = none := by
    unfold compareOption
    simp [pyCeilCount, pyInt, pyMod1]
  have hnone : collectOptions 0 0 uld_specs_compare = none := by
    simp only [uld_specs_compare, collectOptions, h]
  unfold compare_uld_options
  rw [hnone]

/-- C4 (amended): for every nonnegative cargo weight and volume, not both
zero, `compare_uld_options` produces exactly one option per known ULD type
(AKE, AAA, AKN, AAP, AMA), each computed by the same algorithm the Sizing
Function uses (`sizingCore` looked up in the sizing table), with
avg_utilization the mean of weight and volume utilization; the options are
stably sorted descending by avg_utilization (ties retain table declaration
order), and the head of the sorted list is the sole recommendation, whose
average utilization is at least every other option.  At weight = volume =
0 the function instead raises ZeroDivisionError. -/
theorem compare_options_spec (cargo_weight cargo_volume : ℚ)
    (hw : 0 ≤ cargo_weight) (hv : 0 ≤ cargo_volume)
    (hne : 0 < cargo_weight ∨ 0 < cargo_volume) :
    ∃ opts sorted : List UldOption,
      collectOptions cargo_weight cargo_volume uld_specs_compare = some opts ∧
      compare_uld_options cargo_weight cargo_volume = CompareOutcome.result sorted ∧
      sorted = opts.mergeSort optionLE ∧
      opts.map (fun o => o.type) = validTypes ∧
      sorted.length = 5 ∧
      (sorted.map fun o => o.type).Perm validTypes ∧
      (∀ o ∈ sorted, ∃ spec : SizingSpec,
        dictLookup uld_specs_sizing o.type = some spec ∧
        o.quantity = (sizingCore cargo_weight cargo_volume spec).ulds_required ∧
        o.weight_util = cargo_weight / ((o.quantity : ℚ) * spec.max_net) * 100 ∧
        o.volume_util = cargo_volume / ((o.quantity : ℚ) * spec.volume) * 100 ∧
        o.avg_util = (o.weight_util + o.volume_util) / 2) ∧
      sorted.Pairwise (fun a b => b.avg_util ≤ a.avg_util) ∧
      (∀ a b : UldOption, a.avg_util = b.avg_util →
        [a, b].Sublist opts → [a, b].Sublist sorted) ∧
      (∃ best, sorted.head? = some best ∧
        (compare_uld_options cargo_weight cargo_volume).recommendation = some best ∧
        ∀ o ∈ sorted, o.avg_util ≤ best.avg_util) := by
  have hco := collectOptions_eq cargo_weight cargo_volume hw hv hne
    uld_specs_compare compare_table_pos
  set opts := uld_specs_compare.map fun p => mkOption cargo_weight cargo_volume p.1 p.2
    with hopts
  have htypes : opts.map (fun o => o.type) = validTypes := by
    rw [hopts, List.map_map]
    simp only [Function.comp_def, mkOption_type]
    rfl
  have hres : compare_uld_options cargo_weight cargo_volume =
      CompareOutcome.result (opts.mergeSort optionLE) := by
    unfold compare_uld_options
    rw [hco]
  have hlen : (opts.mergeSort optionLE).length = 5 := by
    rw [List.length_mergeSort, hopts, List.length_map]
    rfl
  have hpair := List.sorted_mergeSort optionLE_trans optionLE_total opts
  refine ⟨opts, opts.mergeSort optionLE, hco, hres, rfl, htypes, hlen, ?_, ?_, ?_, ?_, ?_⟩
  · have hperm := (List.mergeSort_perm opts optionLE).map (fun o => o.type)
    rw [htypes] at hperm
    exact hperm
  · intro o ho
    rw [List.mem_mergeSort, hopts] at ho
    obtain ⟨p, hp, rfl⟩ := List.mem_map.mp ho
    exact ⟨p.2, compare_mem_lookup p hp, rfl, rfl, rfl, rfl⟩
  · exact hpair.imp (fun h => by simpa [optionLE] using h)
  · intro a b heq hsub
    exact List.pair_sublist_mergeSort optionLE_trans optionLE_total
      (by simp [optionLE, heq]) hsub
  · cases hsorted : opts.mergeSort optionLE with
    | nil =>
      rw [hsorted] at hlen
      simp at hlen
    | cons best rest =>
      refine ⟨best, rfl, ?_, ?_⟩
      · rw [hres]
        simp only [CompareOutcome.recommendation, hsorted, List.head?_cons]
      · intro o ho
        rw [hsorted] at hpair
        rcases List.mem_cons.mp ho with rfl | hmem
        · exact le_refl _
        · have := List.rel_of_pairwise_cons hpair hmem
          simpa [optionLE] using this

lemma sizingCore_by_weight (w v : ℚ) (spec : SizingSpec) :
    (sizingCore w v spec).ulds_by_weight_rounded = pyCeilCount (w / spec.max_net) := rfl

lemma sizingCore_by_volume (w v : ℚ) (spec : SizingSpec) :
    (sizingCore w v spec).ulds_by_volume_rounded = pyCeilCount (v / spec.volume) := rfl

lemma sizingCore_limiting (w v : ℚ) (spec : SizingSpec) :
    (sizingCore w v spec).limiting_factor =
      if pyCeilCount (v / spec.volume) < pyCeilCount (w / spec.max_net)
        then "weight" else "volume" := rfl

/-- C1: for every nonnegative total weight and total volume and every known
ULD type (default "AKE" when unspecified), `calculate_uld_requirements`
computes the weight-based count as the ceiling of weight over max_net_weight
and the volume-based count as the ceiling of volume over internal_volume,
where the rounding adds one exactly when a nonzero fractional remainder
exists (exact division is not rounded up further); the required count is the
max of the two, and the limiting factor is "weight" exactly when the
weight-based count strictly exceeds the volume-based count, otherwise
"volume" (ties give "volume").  On (2500, 9.0, "AKE") the counts are 2 and
3, the requirement 3, the limiting factor "volume". -/
theorem uld_requirements_spec (total_weight total_volume : ℚ)
    (hw : 0 ≤ total_weight) (hv : 0 ≤ total_volume)
    (uld_type : String) (spec : SizingSpec)
    (hspec : dictLookup uld_specs_sizing (pyUpper uld_type) = some spec) :
    calculate_uld_requirements total_weight total_volume =
      calculate_uld_requirements total_weight total_volume "AKE" ∧
    (sizingCore total_weight total_volume spec).ulds_by_weight_rounded =
      ⌈total_weight / spec.max_net⌉ ∧
    (sizingCore total_weight total_volume spec).ulds_by_volume_rounded =
      ⌈total_volume / spec.volume⌉ ∧
    (sizingCore total_weight total_volume spec).ulds_required =
      max ⌈total_weight / spec.max_net⌉ ⌈total_volume / spec.volume⌉ ∧
    (sizingCore total_weight total_volume spec).limiting_factor =
      (if ⌈total_volume / spec.volume⌉ < ⌈total_weight / spec.max_net⌉
        then "weight" else "volume") ∧
    (calculate_uld_requirements 2500 9 "AKE").counts = some (2, 3, 3, "volume") := by
  obtain ⟨hnet, hvol⟩ := sizing_spec_pos _ spec hspec
  have h1 : pyCeilCount (total_weight / spec.max_net) = ⌈total_weight / spec.max_net⌉ :=
    pyCeilCount_eq_ceil _ (div_nonneg hw hnet.le)
  have h2 : pyCeilCount (total_volume / spec.volume) = ⌈total_volume / spec.volume⌉ :=
    pyCeilCount_eq_ceil _ (div_nonneg hv hvol.le)
  refine ⟨rfl, ?_, ?_, ?_, ?_, eval_sizing_counts⟩
  · rw [sizingCore_by_weight, h1]
  · rw [sizingCore_by_volume, h2]
  · rw [sizingCore_required, h1, h2]
  · rw [sizingCore_limiting, h1, h2]

/-- Witness for C1 at the concrete example input (2500, 9.0, "AKE"). -/
theorem uld_requirements_spec_witness :
    calculate_uld_requirements 2500 9 = calculate_uld_requirements 2500 9 "AKE" ∧
    (sizingCore 2500 9 ⟨"LD3", 1503, 3.5⟩).ulds_by_weight_rounded = ⌈(2500:ℚ)/1503⌉ ∧
    (sizingCore 2500 9 ⟨"LD3", 1503, 3.5⟩).ulds_by_volume_rounded = ⌈(9:ℚ)/3.5⌉ ∧
    (sizingCore 2500 9 ⟨"LD3", 1503, 3.5⟩).ulds_required =
      max ⌈(2500:ℚ)/1503⌉ ⌈(9:ℚ)/3.5⌉ ∧
    (sizingCore 2500 9 ⟨"LD3", 1503, 3.5⟩).limiting_factor =
      (if ⌈(9:ℚ)/3.5⌉ < ⌈(2500:ℚ)/1503⌉ then "weight" else "volume") ∧
    (calculate_uld_requirements 2500 9 "AKE").counts = some (2, 3, 3, "volume") :=
  uld_requirements_spec 2500 9 (by norm_num) (by norm_num) "AKE" ⟨"LD3", 1503, 3.5⟩
    (by rw [pyUpper_AKE, lookup_sizing]; simp)

/-- C2: for every known ULD type, `validate_weight_constraints` compares
cargo plus tare against max_gross_weight when include_tare is set, and cargo
alone against max_net_weight otherwise; the outcome is VALID exactly when
the compared value is at most the capacity (inclusive comparison),
reporting remaining capacity and utilization as compared over capacity
times 100, and otherwise INVALID with the excess and a remediation
suggestion.  ("AKE", 1400, true) is VALID since 1485 is at most 1588;
("AKE", 2000, true) is INVALID with excess 497. -/
theorem validate_weight_spec (uld_type : String) (spec : WeightSpec)
    (cargo_weight : ℚ) (include_tare : Bool)
    (hspec : dictLookup uld_specs_weight (pyUpper uld_type) = some spec) :
    ((validate_weight_constraints uld_type cargo_weight include_tare).isValid = true ↔
      (if include_tare then cargo_weight + spec.tare else cargo_weight) ≤
        (if include_tare then spec.max_gross else spec.max_net)) ∧
    validate_weight_constraints uld_type cargo_weight include_tare =
      (let total_weight := if include_tare then cargo_weight + spec.tare else cargo_weight
       let max_capacity := if include_tare then spec.max_gross else spec.max_net
       let capacity_type := if include_tare then "max gross weight" else "max net weight"
       if total_weight ≤ max_capacity then
         WeightValidation.valid (pyUpper uld_type) spec.name capacity_type
           total_weight max_capacity (max_capacity - total_weight)
           (total_weight / max_capacity * 100)
       else
         WeightValidation.invalid (pyUpper uld_type) spec.name capacity_type
           total_weight max_capacity (total_weight - max_capacity)
           "Use larger ULD type or split cargo") ∧
    validate_weight_constraints "AKE" 1400 true =
      WeightValidation.valid "AKE" "LD3" "max gross weight" 1485 1588 103 (1485/1588*100) ∧
    validate_weight_constraints "AKE" 2000 true =
      WeightValidation.invalid "AKE" "LD3" "max gross weight" 2085 1588 497
        "Use larger ULD type or split cargo" := by
  have hmain : validate_weight_constraints uld_type cargo_weight include_tare =
      (let total_weight := if include_tare then cargo_weight + spec.tare else cargo_weight
       let max_capacity := if include_tare then spec.max_gross else spec.max_net
       let capacity_type := if include_tare then "max gross weight" else "max net weight"
       if total_weight ≤ max_capacity then
         WeightValidation.valid (pyUpper uld_type) spec.name capacity_type
           total_weight max_capacity (max_capacity - total_weight)
           (total_weight / max_capacity * 100)
       else
         WeightValidation.invalid (pyUpper uld_type) spec.name capacity_type
           total_weight max_capacity (total_weight - max_capacity)
           "Use larger ULD type or split cargo") := by
    rw [validate_weight_constraints, hspec]
  refine ⟨?_, hmain, eval_validate_AKE_1400, eval_validate_AKE_2000⟩
  rw [hmain]
  by_cases hle : (if include_tare then cargo_weight + spec.tare else cargo_weight) ≤
      (if include_tare then spec.max_gross else spec.max_net)
  · simp [WeightValidation.isValid, hle]
  · simp [WeightValidation.isValid, hle]

/-- Witness for C2 at ("AKE", 1400, true). -/
theorem validate_weight_spec_witness :
    ((validate_weight_constraints "AKE" 1400 true).isValid = true ↔
      (if true then (1400:ℚ) + (85:ℚ) else 1400) ≤ (if true then (1588:ℚ) else 1503)) ∧
    validate_weight_constraints "AKE" 1400 true =
      (let total_weight := if true then (1400:ℚ) + (85:ℚ) else 1400
       let max_capacity := if true then (1588:ℚ) else 1503
       let capacity_type := if true then "max gross weight" else "max net weight"
       if total_weight ≤ max_capacity then
         WeightValidation.valid (pyUpper "AKE") "LD3" capacity_type
           total_weight max_capacity (max_capacity - total_weight)
           (total_weight / max_capacity * 100)
       else
         WeightValidation.invalid (pyUpper "AKE") "LD3" capacity_type
           total_weight max_capacity (total_weight - max_capacity)
           "Use larger ULD type or split cargo") ∧
    validate_weight_constraints "AKE" 1400 true =
      WeightValidation.valid "AKE" "LD3" "max gross weight" 1485 1588 103 (1485/1588*100) ∧
    validate_weight_constraints "AKE" 2000 true =
      WeightValidation.invalid "AKE" "LD3" "max gross weight" 2085 1588 497
        "Use larger ULD type or split cargo" :=
  validate_weight_spec "AKE" ⟨"LD3", 1588, 85, 1503⟩ 1400 true
    (by rw [pyUpper_AKE, lookup_weight]; simp)

/-- C3: for every known ULD type, `check_dimensional_fit` reports FITS
exactly when cargo length and width are within the internal length and
width and cargo height is within internal height plus the fixed 5-unit
overhang tolerance (fixed axes, no rotation); otherwise it reports DOES
NOT FIT with per-dimension pass flags and the excess for each failing
dimension.  (120, 100, 150, "AKE") FITS and (200, 200, 200, "AKE") fails
on all three axes. -/
theorem dimensional_fit_spec (cargo_length cargo_width cargo_height : ℚ)
    (uld_type : String) (dim : DimSpec)
    (hdim : dictLookup uld_dimensions (pyUpper uld_type) = some dim) :
    ((check_dimensional_fit cargo_length cargo_width cargo_height uld_type).isFits = true ↔
      (cargo_length ≤ dim.length ∧ cargo_width ≤ dim.width ∧
        cargo_height ≤ dim.height + 5)) ∧
    (¬(cargo_length ≤ dim.length ∧ cargo_width ≤ dim.width ∧
        cargo_height ≤ dim.height + 5) →
      check_dimensional_fit cargo_length cargo_width cargo_height uld_type =
        FitOutcome.doesNotFit (pyUpper uld_type) dim.name
          (decide (cargo_length ≤ dim.length)) (decide (cargo_width ≤ dim.width))
          (decide (cargo_height ≤ dim.height + 5))
          (if cargo_length ≤ dim.length then none else some (cargo_length - dim.length))
          (if cargo_width ≤ dim.width then none else some (cargo_width - dim.width))
          (if cargo_height ≤ dim.height + 5 then none
            else some (cargo_height - (dim.height + 5)))
          "Use larger ULD type or reorient cargo") ∧
    check_dimensional_fit 120 100 150 "AKE" = FitOutcome.fits "AKE" "LD3" 30 47 12 ∧
    check_dimensional_fit 200 200 200 "AKE" =
      FitOutcome.doesNotFit "AKE" "LD3" false false false (some 50) (some 53) (some 38)
        "Use larger ULD type or reorient cargo" := by
  refine ⟨?_, ?_, eval_fit_pass, eval_fit_fail⟩
  · rw [check_dimensional_fit, hdim]
    by_cases h1 : cargo_length ≤ dim.length <;>
      by_cases h2 : cargo_width ≤ dim.width <;>
        by_cases h3 : cargo_height ≤ dim.height + 5 <;>
          simp [FitOutcome.isFits, h1, h2, h3]
  · intro hnot
    rw [check_dimensional_fit, hdim]
    by_cases h1 : cargo_length ≤ dim.length <;>
      by_cases h2 : cargo_width ≤ dim.width <;>
        by_cases h3 : cargo_height ≤ dim.height + 5
    · exact absurd ⟨h1, h2, h3⟩ hnot
    all_goals simp [h1, h2, h3]

/-- Witness for C3 at (120, 100, 150, "AKE"). -/
theorem dimensional_fit_spec_witness :
    ((check_dimensional_fit 120 100 150 "AKE").isFits = true ↔
      ((120:ℚ) ≤ 150 ∧ (100:ℚ) ≤ 147 ∧ (150:ℚ) ≤ 157 + 5)) ∧
    (¬((120:ℚ) ≤ 150 ∧ (100:ℚ) ≤ 147 ∧ (150:ℚ) ≤ 157 + 5) →
      check_dimensional_fit 120 100 150 "AKE" =
        FitOutcome.doesNotFit (pyUpper "AKE") "LD3"
          (decide ((120:ℚ) ≤ 150)) (decide ((100:ℚ) ≤ 147)) (decide ((150:ℚ) ≤ 157 + 5))
          (if (120:ℚ) ≤ 150 then none else some (120 - 150))
          (if (100:ℚ) ≤ 147 then none else some (100 - 147))
          (if (150:ℚ) ≤ 157 + 5 then none else some (150 - (157 + 5)))
          "Use larger ULD type or reorient cargo") ∧
    check_dimensional_fit 120 100 150 "AKE" = FitOutcome.fits "AKE" "LD3" 30 47 12 ∧
    check_dimensional_fit 200 200 200 "AKE" =
      FitOutcome.doesNotFit "AKE" "LD3" false false false (some 50) (some 53) (some 38)
        "Use larger ULD type or reorient cargo" :=
  dimensional_fit_spec 120 100 150 "AKE" ⟨"LD3", 150, 147, 157⟩
    (by rw [pyUpper_AKE, lookup_dims]; simp)

/-- C4 counterexample: at cargo weight 0 and volume 0 the loop body of
`compare_uld_options` divides by `ulds_required * max_net` with
`ulds_required = 0`, so the Python function raises an uncaught
ZeroDivisionError and produces no options at all, contradicting the claim
for every cargo weight and volume. -/
theorem compare_options_zero_division :
    compare_uld_options 0 0 = CompareOutcome.zeroDivisionError :=
  eval_compare_zero

/-- Witness for C4 at (2500, 9). -/
theorem compare_options_spec_witness :
    ∃ opts sorted : List UldOption,
      collectOptions 2500 9 uld_specs_compare = some opts ∧
      compare_uld_options 2500 9 = CompareOutcome.result sorted ∧
      sorted = opts.mergeSort optionLE ∧
      opts.map (fun o => o.type) = validTypes ∧
      sorted.length = 5 ∧
      (sorted.map fun o => o.type).Perm validTypes ∧
      (∀ o ∈ sorted, ∃ spec : SizingSpec,
        dictLookup uld_specs_sizing o.type = some spec ∧
        o.quantity = (sizingCore 2500 9 spec).ulds_required ∧
        o.weight_util = 2500 / ((o.quantity : ℚ) * spec.max_net) * 100 ∧
        o.volume_util = 9 / ((o.quantity : ℚ) * spec.volume) * 100 ∧
        o.avg_util = (o.weight_util + o.volume_util) / 2) ∧
      sorted.Pairwise (fun a b => b.avg_util ≤ a.avg_util) ∧
      (∀ a b : UldOption, a.avg_util = b.avg_util →
        [a, b].Sublist opts → [a, b].Sublist sorted) ∧
      (∃ best, sorted.head? = some best ∧
        (compare_uld_options 2500 9).recommendation = some best ∧
        ∀ o ∈ sorted, o.avg_util ≤ best.avg_util) :=
  compare_options_spec 2500 9 (by norm_num) (by norm_num) (Or.inl (by norm_num))

/-- C5: for every well-formed item list with nonnegative weights
(default 0) and positive integer quantities (default 1),
`calculate_total_weight` returns the sum over items of weight times
quantity, with exactly one breakdown entry per input item in input
order. -/
theorem total_weight_spec (items : List WeightItem)
    (h : ∀ i ∈ items, 0 ≤ i.weight.getD 0 ∧ ∃ n : ℕ, 0 < n ∧ i.quantity.getD 1 = n) :
    calculate_total_weight (Except.ok items) =
      WeightResult.ok ((items.map fun i => i.weight.getD 0 * i.quantity.getD 1).sum)
        (items.map fun i =>
          (i.quantity.getD 1, i.weight.getD 0, i.weight.getD 0 * i.quantity.getD 1)) ∧
    (items.map fun i =>
      (i.quantity.getD 1, i.weight.getD 0, i.weight.getD 0 * i.quantity.getD 1)).length =
      items.length := by
  constructor
  · simp only [calculate_total_weight]
    rw [foldl_weightStep]
    simp
  · exact List.length_map _ _

/-- Witness for C5: two items (500 x 5, 300 x 3) total 3400. -/
theorem total_weight_spec_witness :
    calculate_total_weight (Except.ok [⟨some 500, some 5⟩, ⟨some 300, some 3⟩]) =
      WeightResult.ok 3400 [(5, 500, 2500), (3, 300, 900)] := by
  have h := total_weight_spec [⟨some 500, some 5⟩, ⟨some 300, some 3⟩]
    (by
      intro i hi
      simp only [List.mem_cons, List.not_mem_nil, or_false] at hi
      rcases hi with rfl | rfl
      · exact ⟨by norm_num, 5, by norm_num, by norm_num⟩
      · exact ⟨by norm_num, 3, by norm_num, by norm_num⟩)
  rw [h.1]
  norm_num

/-- C6: `calculate_total_volume` returns the sum over items of length times
width times height times quantity, divided by the fixed 1,000,000
cubic-centimeter to cubic-meter divisor, with one breakdown entry per item;
a single item 120 x 100 x 80 with quantity 5 totals 4.80 cubic meters. -/
theorem total_volume_spec (items : List VolumeItem) :
    calculate_total_volume (Except.ok items) =
      VolumeResult.ok
        ((items.map fun i =>
            i.length.getD 0 * i.width.getD 0 * i.height.getD 0 * i.quantity.getD 1).sum
          / 1000000)
        (items.map fun i =>
          (i.quantity.getD 1, i.length.getD 0, i.width.getD 0, i.height.getD 0,
            i.length.getD 0 * i.width.getD 0 * i.height.getD 0 / 1000000 * i.quantity.getD 1)) ∧
    (items.map fun i =>
      (i.quantity.getD 1, i.length.getD 0, i.width.getD 0, i.height.getD 0,
        i.length.getD 0 * i.width.getD 0 * i.height.getD 0 / 1000000 * i.quantity.getD 1)).length =
      items.length ∧
    calculate_total_volume (Except.ok [⟨some 120, some 100, some 80, some 5⟩]) =
      VolumeResult.ok (24/5) [(5, 120, 100, 80, 24/5)] := by
  refine ⟨?_, List.length_map _ _, ?_⟩
  · simp only [calculate_total_volume]
    rw [foldl_volumeStep]
    simp
  · simp only [calculate_total_volume]
    rw [foldl_volumeStep]
    norm_num

/-- C7: for every string whose uppercased form is not a key of the
specification table, each of the three core functions taking a uld_type
returns the identical error string enumerating the valid codes instead of
performing any comparison or sizing; lookup canonicalizes the supplied code
to uppercase, so lowercase codes behave like their uppercase forms.
Repeated calls are identical because the functions are pure. -/
theorem unknown_type_error_spec (uld_type : String)
    (h : pyUpper uld_type ∉ validTypes)
    (cargo_weight total_weight total_volume cargo_length cargo_width cargo_height : ℚ)
    (include_tare : Bool) :
    validate_weight_constraints uld_type cargo_weight include_tare =
      WeightValidation.error ("‚ùå ERROR: Unknown ULD type \x27" ++ uld_type ++
        "\x27. Valid types: AKE, AAA, AKN, AAP, AMA") ∧
    calculate_uld_requirements total_weight total_volume uld_type =
      SizingOutcome.error ("‚ùå ERROR: Unknown ULD type \x27" ++ uld_type ++
        "\x27. Valid types: AKE, AAA, AKN, AAP, AMA") ∧
    check_dimensional_fit cargo_length cargo_width cargo_height uld_type =
      FitOutcome.error ("‚ùå ERROR: Unknown ULD type \x27" ++ uld_type ++
        "\x27. Valid types: AKE, AAA, AKN, AAP, AMA") ∧
    validate_weight_constraints "ake" 1400 true =
      validate_weight_constraints "AKE" 1400 true ∧
    calculate_uld_requirements 2500 9 "ake" = calculate_uld_requirements 2500 9 "AKE" ∧
    check_dimensional_fit 120 100 150 "ake" = check_dimensional_fit 120 100 150 "AKE" := by
  refine ⟨?_, ?_, ?_, eval_validate_ake_1400.trans eval_validate_AKE_1400.symm,
    eval_sizing_ake.trans eval_sizing_AKE.symm, eval_fit_ake.trans eval_fit_pass.symm⟩
  · rw [validate_weight_constraints, lookup_none_of_not_mem_weight _ h]
  · rw [calculate_uld_requirements, lookup_none_of_not_mem_sizing _ h]
  · rw [check_dimensional_fit, lookup_none_of_not_mem_dims _ h]

/-- Witness for C7 at the unknown code "XYZ" and lowercase "ake". -/
theorem unknown_type_error_spec_witness :
    validate_weight_constraints "XYZ" 1000 true =
      WeightValidation.error ("‚ùå ERROR: Unknown ULD type \x27" ++ "XYZ" ++
        "\x27. Valid types: AKE, AAA, AKN, AAP, AMA") ∧
    calculate_uld_requirements 10 2 "XYZ" =
      SizingOutcome.error ("‚ùå ERROR: Unknown ULD type \x27" ++ "XYZ" ++
        "\x27. Valid types: AKE, AAA, AKN, AAP, AMA") ∧
    check_dimensional_fit 30 40 50 "XYZ" =
      FitOutcome.error ("‚ùå ERROR: Unknown ULD type \x27" ++ "XYZ" ++
        "\x27. Valid types: AKE, AAA, AKN, AAP, AMA") ∧
    validate_weight_constraints "ake" 1400 true =
      validate_weight_constraints "AKE" 1400 true ∧
    calculate_uld_requirements 2500 9 "ake" = calculate_uld_requirements 2500 9 "AKE" ∧
    check_dimensional_fit 120 100 150 "ake" = check_dimensional_fit 120 100 150 "AKE" :=
  unknown_type_error_spec "XYZ" (by decide) 1000 10 2 30 40 50 true

/-- C8 counterexample: `calculate_uld_requirements` has no try/except, and
at total weight 0 and total volume 0 its utilization computation divides by
`ulds_required * capacity` with `ulds_required = 0`, so a ZeroDivisionError
propagates to the caller instead of a string being returned. -/
theorem uld_requirements_zero_division :
    calculate_uld_requirements 0 0 "AKE" = SizingOutcome.zeroDivisionError :=
  eval_sizing_zero "AKE" ⟨"LD3", 1503, 3.5⟩ (by rw [pyUpper_AKE, lookup_sizing]; simp)

/-- C8 (amended): the aggregation functions catch every failure and always
return a value (decoding failures become the "Error calculating ..."
string); `calculate_uld_requirements` and `compare_uld_options` return a
value whenever weight and volume are nonnegative and not both zero, but
raise an uncaught ZeroDivisionError when the computed required count is
zero, e.g. at weight = volume = 0. -/
theorem raise_behavior_spec :
    (∀ e : String, calculate_total_weight (Except.error e) =
      WeightResult.error ("Error calculating weight: " ++ e)) ∧
    (∀ e : String, calculate_total_volume (Except.error e) =
      VolumeResult.error ("Error calculating volume: " ++ e)) ∧
    (∀ items : List WeightItem, ∃ t bd,
      calculate_total_weight (Except.ok items) = WeightResult.ok t bd) ∧
    (∀ items : List VolumeItem, ∃ t bd,
      calculate_total_volume (Except.ok items) = VolumeResult.ok t bd) ∧
    (∀ (w v : ℚ) (t : String), 0 ≤ w → 0 ≤ v → (0 < w ∨ 0 < v) →
      calculate_uld_requirements w v t ≠ SizingOutcome.zeroDivisionError) ∧
    (∀ w v : ℚ, 0 ≤ w → 0 ≤ v → (0 < w ∨ 0 < v) →
      compare_uld_options w v ≠ CompareOutcome.zeroDivisionError) ∧
    (∀ (t : String) (spec : SizingSpec),
      dictLookup uld_specs_sizing (pyUpper t) = some spec →
      calculate_uld_requirements 0 0 t = SizingOutcome.zeroDivisionError) := by
  refine ⟨fun e => rfl, fun e => rfl, fun items => ⟨_, _, rfl⟩, fun items => ⟨_, _, rfl⟩,
    ?_, ?_, eval_sizing_zero⟩
  · intro w v t hw hv hne heq
    cases hspec : dictLookup uld_specs_sizing (pyUpper t) with
    | none =>
      rw [calculate_uld_requirements, hspec] at heq
      simp at heq
    | some spec =>
      obtain ⟨hnet, hvol⟩ := sizing_spec_pos _ spec hspec
      have hr : (0:ℚ) < ((sizingCore w v spec).ulds_required : ℚ) := by
        exact_mod_cast sizingCore_required_pos w v spec hw hv hne hnet hvol
      have hcond : ¬(((sizingCore w v spec).ulds_required : ℚ) * spec.max_net = 0 ∨
          ((sizingCore w v spec).ulds_required : ℚ) * spec.volume = 0) := by
        push_neg
        exact ⟨(mul_pos hr hnet).ne', (mul_pos hr hvol).ne'⟩
      rw [calculate_uld_requirements, hspec] at heq
      simp only [if_neg hcond] at heq
      exact SizingOutcome.noConfusion heq
  · intro w v hw hv hne heq
    have hco := collectOptions_eq w v hw hv hne uld_specs_compare compare_table_pos
    unfold compare_uld_options at heq
    rw [hco] at heq
    simp at heq

/-- Witness for C8 at a failing decode, at (1, 0) and at (0, 0). -/
theorem raise_behavior_spec_witness :
    calculate_total_weight (Except.error "boom") =
      WeightResult.error ("Error calculating weight: " ++ "boom") ∧
    calculate_uld_requirements 1 0 "AKE" ≠ SizingOutcome.zeroDivisionError ∧
    compare_uld_options 1 0 ≠ CompareOutcome.zeroDivisionError ∧
    calculate_uld_requirements 0 0 "AKE" = SizingOutcome.zeroDivisionError :=
  ⟨raise_behavior_spec.1 "boom",
   raise_behavior_spec.2.2.2.2.1 1 0 "AKE" (by norm_num) (by norm_num)
     (Or.inl (by norm_num)),
   raise_behavior_spec.2.2.2.2.2.1 1 0 (by norm_num) (by norm_num)
     (Or.inl (by norm_num)),
   raise_behavior_spec.2.2.2.2.2.2 "AKE" ⟨"LD3", 1503, 3.5⟩
     (by rw [pyUpper_AKE, lookup_sizing]; simp)⟩

/-- C9: in every record of the weight table, the independently stored
max_net_weight equals max_gross_weight minus tare_weight; the max_net
constants of the sizing table agree key-by-key with the weight table, the
comparison table is identical to the sizing table, and the shared values
are 1503, 4506, 2344, 3061, 6624. -/
theorem table_consistency_spec :
    uld_specs_weight.map (fun p => p.2.max_net) =
      uld_specs_weight.map (fun p => p.2.max_gross - p.2.tare) ∧
    uld_specs_sizing.map (fun p => (p.1, p.2.max_net)) =
      uld_specs_weight.map (fun p => (p.1, p.2.max_net)) ∧
    uld_specs_compare = uld_specs_sizing ∧
    uld_specs_weight.map (fun p => (p.1, p.2.max_net)) =
      [("AKE", 1503), ("AAA", 4506), ("AKN", 2344), ("AAP", 3061), ("AMA", 6624)] := by
  refine ⟨?_, ?_, compare_eq_sizing_table, ?_⟩
  · simp only [uld_specs_weight, List.map]
    norm_num
  · simp only [uld_specs_sizing, uld_specs_weight, List.map]
  · simp only [uld_specs_weight, List.map]

/-- C10: the empty item list is accepted by both aggregation functions,
yielding a normal result with total 0 and an empty breakdown. -/
theorem empty_items_spec :
    calculate_total_weight (Except.ok []) = WeightResult.ok 0 [] ∧
    calculate_total_volume (Except.ok []) = VolumeResult.ok 0 [] := by
  constructor
  · rfl
  · simp only [calculate_total_volume, List.foldl_nil]
    norm_num

end UldUtils
